import Mathlib

/-
Verification development for two subsystems of the rsvg rendering core:
the feMerge filter primitive (rsvg_internals/src/filters/merge.rs) and the
viewport/coordinate-establishment routine (rsvg_internals/src/viewport.rs).

External collaborators (cairo, the srgb color conversion module, input
resolution through the filter context, the drawing context) are embedded
symbolically: a `Surface` value records the exact sequence of surface
operations applied to it, and each rendering function additionally returns
the list of external calls it performed, so statements about call order and
about calls that must not happen are provable.
-/

namespace Rsvg

/-- Integer pixel rectangle `(x0, y0, x1, y1)` in device pixels.
Modelled from the spec: `IRect` lives in filters/context.rs, outside the
two given source files; the spec gives exactly these four integer fields. -/
structure IRect where
  x0 : Int
  y0 : Int
  x1 : Int
  y1 : Int
deriving DecidableEq, Repr

/-- A cairo status code, kept abstract (only its identity matters here). -/
structure Status where
  code : Nat
deriving DecidableEq, Repr

/-- The surface formats of `cairo::Format`; the merge code only ever creates
`ARgb32` surfaces. -/
inductive Format where
  | ARgb32
  | Rgb24
  | A8
deriving DecidableEq, Repr

/-- The typed filter errors. `BadInputSurfaceStatus` and
`OutputSurfaceCreation` are the variants used by merge.rs;
`InputResolution` stands for the abstract errors that
`ctx.get_input`/`get_surface` (declared outside the given sources) can
return, e.g. a named input that was never produced. -/
inductive FilterError where
  | InputResolution (k : Nat)
  | BadInputSurfaceStatus (status : Status)
  | OutputSurfaceCreation (status : Status)
deriving DecidableEq, Repr

/-- An `in` reference of a merge node. Modelled from the spec: the `Input`
type (filters/input.rs) is a reference to a source of pixels; its internal
structure is irrelevant here because resolution is an external lookup, so it
is kept opaque. -/
structure Input where
  id : Nat
deriving DecidableEq, Repr

/-- A 2x3 affine matrix exactly as in `cairo::Matrix`: a point `(px, py)`
maps to `(xx*px + xy*py + x0, yx*px + yy*py + y0)`. -/
structure CairoMatrix where
  xx : Rat
  yx : Rat
  xy : Rat
  yy : Rat
  x0 : Rat
  y0 : Rat
deriving DecidableEq, Repr

/-- The identity transform, the state of a freshly created cairo context. -/
def CairoMatrix.identity : CairoMatrix :=
  { xx := 1, yx := 0, xy := 0, yy := 1, x0 := 0, y0 := 0 }

/-- `cairo_matrix_multiply`: the result applies the transformation `a`
first and then `b`. -/
def CairoMatrix.multiply (a b : CairoMatrix) : CairoMatrix :=
  { xx := a.xx * b.xx + a.yx * b.xy
  , yx := a.xx * b.yx + a.yx * b.yy
  , xy := a.xy * b.xx + a.yy * b.xy
  , yy := a.xy * b.yx + a.yy * b.yy
  , x0 := a.x0 * b.xx + a.y0 * b.xy + b.x0
  , y0 := a.x0 * b.yx + a.y0 * b.yy + b.y0 }

/-- `cairo_matrix_init_translate`. -/
def CairoMatrix.init_translate (tx ty : Rat) : CairoMatrix :=
  { xx := 1, yx := 0, xy := 0, yy := 1, x0 := tx, y0 := ty }

/-- `cairo_matrix_init_scale`. -/
def CairoMatrix.init_scale (sx sy : Rat) : CairoMatrix :=
  { xx := sx, yx := 0, xy := 0, yy := sy, x0 := 0, y0 := 0 }

/-- `cairo_matrix_translate`: the translation is applied to user
coordinates before the original transformation. -/
def CairoMatrix.translate (m : CairoMatrix) (tx ty : Rat) : CairoMatrix :=
  CairoMatrix.multiply (CairoMatrix.init_translate tx ty) m

/-- `cairo_matrix_scale`: the scaling is applied to user coordinates
before the original transformation. -/
def CairoMatrix.scale (m : CairoMatrix) (sx sy : Rat) : CairoMatrix :=
  CairoMatrix.multiply (CairoMatrix.init_scale sx sy) m

/-- Apply an affine matrix to a point. -/
def CairoMatrix.apply (m : CairoMatrix) (p : Rat × Rat) : Rat × Rat :=
  (m.xx * p.1 + m.xy * p.2 + m.x0, m.yx * p.1 + m.yy * p.2 + m.y0)

/-- A rectangle added to a cairo path by `Context::rectangle`. -/
structure PathRect where
  x : Rat
  y : Rat
  width : Rat
  height : Rat
deriving DecidableEq, Repr

/-- One rectangle of a cairo clip region, together with the transform that
was current when `Context::clip` consumed it. -/
structure ClipEntry where
  rect : PathRect
  matrix : CairoMatrix
deriving DecidableEq, Repr

/-- The Porter-Duff compositing operators of `cairo::Operator` used or
reachable here; a fresh cairo context defaults to `Over` (source-over). -/
inductive Operator where
  | Over
  | Source
  | Atop
  | Clear
deriving DecidableEq, Repr

/-- A raster surface, represented symbolically: each constructor records one
way the code obtains a surface, so the exact pipeline of operations a
surface went through is readable from its value.
  * `source id` — an opaque surface coming from input resolution or the
    source graphic;
  * `linearized s bounds` — the result of `linearize_surface(&s, bounds)`
    (display sRGB to linear-light over `bounds`; pixels outside `bounds`
    are not carried over);
  * `unlinearized s bounds` — the result of `unlinearize_surface(&s, bounds)`
    (linear-light back to display color over `bounds`);
  * `created fmt w h` — `ImageSurface::create(fmt, w, h)`: a fresh surface
    of the given format and size, which cairo initializes fully transparent;
  * `painted target src sx sy op clip m` — `Context::paint` on a context
    over `target` whose source pattern is the surface `src` offset by
    `(sx, sy)`, with compositing operator `op`, clip region `clip` and
    transformation matrix `m`;
  * `paintedDefaultSource` — the same with the default (opaque black)
    source pattern, never produced by the merge code. -/
inductive Surface where
  | source (id : Nat)
  | linearized (s : Surface) (bounds : IRect)
  | unlinearized (s : Surface) (bounds : IRect)
  | created (format : Format) (width height : Int)
  | painted (target : Surface) (src : Surface) (srcX srcY : Rat) (op : Operator)
      (clip : List ClipEntry) (matrix : CairoMatrix)
  | paintedDefaultSource (target : Surface) (op : Operator)
      (clip : List ClipEntry) (matrix : CairoMatrix)
deriving DecidableEq, Repr

/-- The state of a `cairo::Context`: its target surface, current transform,
current path, accumulated clip region, source pattern and operator. -/
structure CairoContext where
  target : Surface
  matrix : CairoMatrix
  path : List PathRect
  clipRegion : List ClipEntry
  src : Option (Surface × Rat × Rat)
  op : Operator

/-- `cairo::Context::new(&target)`: identity matrix, empty path, no clip,
default source, operator `Over`. -/
def CairoContext.new (target : Surface) : CairoContext :=
  { target := target, matrix := CairoMatrix.identity, path := [], clipRegion := []
  , src := none, op := Operator.Over }

/-- `Context::rectangle`: append a rectangle to the current path. -/
def CairoContext.rectangle (cr : CairoContext) (x y width height : Rat) : CairoContext :=
  { cr with path := cr.path ++ [{ x := x, y := y, width := width, height := height }] }

/-- `Context::clip`: intersect the clip region with the current path
(interpreted under the current transform) and clear the path. -/
def CairoContext.clip (cr : CairoContext) : CairoContext :=
  { cr with
    clipRegion := cr.clipRegion ++ cr.path.map (fun r => { rect := r, matrix := cr.matrix })
  , path := [] }

/-- `Context::set_source_surface`. -/
def CairoContext.set_source_surface (cr : CairoContext) (s : Surface) (x y : Rat) :
    CairoContext :=
  { cr with src := some (s, x, y) }

/-- `Context::set_operator`. -/
def CairoContext.set_operator (cr : CairoContext) (op : Operator) : CairoContext :=
  { cr with op := op }

/-- `Context::set_matrix`. -/
def CairoContext.set_matrix (cr : CairoContext) (m : CairoMatrix) : CairoContext :=
  { cr with matrix := m }

/-- `Context::paint`: composite the current source onto the target through
the current operator, clip region and transform. -/
def CairoContext.paint (cr : CairoContext) : Surface :=
  match cr.src with
  | none => Surface.paintedDefaultSource cr.target cr.op cr.clipRegion cr.matrix
  | some (s, x, y) => Surface.painted cr.target s x y cr.op cr.clipRegion cr.matrix

/-- One external call performed during filter rendering; rendering
functions return the ordered list of the calls they made. -/
inductive Event where
  | getInputCall (input : Option Input)
  | linearizeCall (surface : Surface) (bounds : IRect)
  | unlinearizeCall (surface : Surface) (bounds : IRect)
  | createCall (format : Format) (width height : Int)
deriving DecidableEq, Repr

/-- A filter computation: the ordered log of external calls performed, and
either a value or the `FilterError` the Rust `?` operator propagated. -/
abbrev RM (α : Type) : Type := List Event × Except FilterError α

/-- Shared attributes of every filter primitive. Modelled from the spec:
the `Primitive` base (filters/mod.rs, outside the given sources) carries an
optional `result` name and an optional subregion; the subregion only enters
through `get_bounds`, which is modelled as the context's
`primitiveBounds` oracle. -/
structure Primitive where
  result : Option String

/-- The `feMerge` filter primitive. -/
structure Merge where
  base : Primitive

/-- The `<feMergeNode>` element: holds one optional `in` reference. -/
structure MergeNode where
  in_ : Option Input

/-- The node kinds relevant here; `OtherKind k` stands for every other
variant of the full `NodeType` enumeration. -/
inductive NodeType where
  | FilterPrimitiveMerge
  | FilterPrimitiveMergeNode
  | OtherKind (k : Nat)
deriving DecidableEq, Repr

/-- A child of the merge node's element: its kind tag together with the
merge-node state that `with_impl` would expose (meaningful only when the
kind is `FilterPrimitiveMergeNode`). -/
structure ChildNode where
  nodeType : NodeType
  impl : MergeNode

/-- The read-only view of a tree node used here: its ordered children. -/
structure RsvgNode where
  children : List ChildNode

/-- The filter evaluation context together with the external collaborators
it gives access to. Modelled from the spec: `FilterContext` lives in
filters/context.rs, outside the given sources.
  * `getInputSurface` is `get_surface(ctx.get_input(input))`: resolve an
    optional `in` reference to a surface or fail;
  * `sourceWidth`/`sourceHeight` are
    `ctx.source_graphic().get_width()/get_height()`;
  * `primitiveBounds` is `Primitive::get_bounds(ctx)`, a pure function of
    the primitive's attributes and the context;
  * `linearizeResult`/`unlinearizeResult`/`createResult` decide whether the
    external srgb conversions and `ImageSurface::create` succeed (`none`)
    or with which status they fail (`some st`); on success the converted
    surface itself is recorded symbolically. -/
structure FilterContext where
  getInputSurface : Option Input → Except FilterError Surface
  sourceWidth : Int
  sourceHeight : Int
  primitiveBounds : Primitive → IRect
  linearizeResult : Surface → IRect → Option Status
  unlinearizeResult : Surface → IRect → Option Status
  createResult : Format → Int → Int → Option Status

/-- Modelled from the spec: `linearize_surface` (srgb module, outside the
given sources) converts a surface from display sRGB to linear-light over
`bounds`, failing with a cairo status on a bad surface. The conversion is
kept symbolic; the context's oracle decides success. -/
def linearize_surface (ctx : FilterContext) (surface : Surface) (bounds : IRect) :
    Except Status Surface :=
  match ctx.linearizeResult surface bounds with
  | some status => Except.error status
  | none => Except.ok (Surface.linearized surface bounds)

/-- Modelled from the spec: `unlinearize_surface` (srgb module, outside the
given sources) converts a surface from linear-light back to display color
over `bounds`, failing with a cairo status on a bad surface. -/
def unlinearize_surface (ctx : FilterContext) (surface : Surface) (bounds : IRect) :
    Except Status Surface :=
  match ctx.unlinearizeResult surface bounds with
  | some status => Except.error status
  | none => Except.ok (Surface.unlinearized surface bounds)

/-- `cairo::ImageSurface::create(format, width, height)`: allocate a fresh
surface (fully transparent per cairo's semantics), or fail with a status. -/
def image_surface_create (ctx : FilterContext) (format : Format) (width height : Int) :
    Except Status Surface :=
  match ctx.createResult format width height with
  | some status => Except.error status
  | none => Except.ok (Surface.created format width height)

/-- `MergeNode::render` (merge.rs lines 87-115): resolve and linearize the
input; if there is no accumulator yet return the linearized surface
directly, otherwise paint it onto the accumulator on a fresh cairo context
(rectangle over `bounds`, clip, source = the linearized input at (0,0),
operator Over, paint). -/
def MergeNode.render (self : MergeNode) (ctx : FilterContext) (bounds : IRect)
    (output_surface : Option Surface) : RM Surface :=
  match ctx.getInputSurface self.in_ with
  | Except.error e => ([Event.getInputCall self.in_], Except.error e)
  | Except.ok resolved =>
    match linearize_surface ctx resolved bounds with
    | Except.error status =>
      ([Event.getInputCall self.in_, Event.linearizeCall resolved bounds],
       Except.error (FilterError.BadInputSurfaceStatus status))
    | Except.ok input_surface =>
      match output_surface with
      | none =>
        ([Event.getInputCall self.in_, Event.linearizeCall resolved bounds],
         Except.ok input_surface)
      | some target =>
        let cr := CairoContext.new target
        let cr := cr.rectangle (bounds.x0 : Rat) (bounds.y0 : Rat)
          ((bounds.x1 - bounds.x0 : Int) : Rat) ((bounds.y1 - bounds.y0 : Int) : Rat)
        let cr := cr.clip
        let cr := cr.set_source_surface input_surface 0 0
        let cr := cr.set_operator Operator.Over
        ([Event.getInputCall self.in_, Event.linearizeCall resolved bounds],
         Except.ok cr.paint)

/-- The loop of `Merge::render` (merge.rs lines 122-129): fold the given
children left-to-right, threading `output_surface` and aborting on the
first error, exactly as `?` inside the `for` loop does. -/
def Merge.renderChildren (ctx : FilterContext) (bounds : IRect) :
    List ChildNode → Option Surface → RM (Option Surface)
  | [], output_surface => ([], Except.ok output_surface)
  | child :: rest, output_surface =>
    match MergeNode.render child.impl ctx bounds output_surface with
    | (log, Except.error e) => (log, Except.error e)
    | (log, Except.ok s) =>
      let next := Merge.renderChildren ctx bounds rest (some s)
      (log ++ next.1, next.2)

/-- `FilterOutput`: an owned surface plus the rectangle within it
considered painted. Modelled from the spec (filters/context.rs). -/
structure FilterOutput where
  surface : Surface
  bounds : IRect

/-- `FilterResult`: a completed primitive's optionally named output.
Modelled from the spec (filters/context.rs). -/
structure FilterResult where
  name : Option String
  output : FilterOutput

/-- `Merge::render` (merge.rs lines 119-149): compute the bounds, fold the
children of kind `FilterPrimitiveMergeNode`, then either unlinearize the
accumulator or — when no merge-node child existed — create a transparent
ARgb32 surface sized to the source graphic; both final steps map their
failure status to `FilterError::OutputSurfaceCreation`. -/
def Merge.render (self : Merge) (node : RsvgNode) (ctx : FilterContext) : RM FilterResult :=
  let bounds := ctx.primitiveBounds self.base
  match Merge.renderChildren ctx bounds
      (node.children.filter (fun c => c.nodeType == NodeType.FilterPrimitiveMergeNode))
      none with
  | (log, Except.error e) => (log, Except.error e)
  | (log, Except.ok output_surface) =>
    let finalStep : RM Surface :=
      match output_surface with
      | some surface =>
        ([Event.unlinearizeCall surface bounds],
         match unlinearize_surface ctx surface bounds with
         | Except.error status => Except.error (FilterError.OutputSurfaceCreation status)
         | Except.ok s => Except.ok s)
      | none =>
        ([Event.createCall Format.ARgb32 ctx.sourceWidth ctx.sourceHeight],
         match image_surface_create ctx Format.ARgb32 ctx.sourceWidth ctx.sourceHeight with
         | Except.error status => Except.error (FilterError.OutputSurfaceCreation status)
         | Except.ok s => Except.ok s)
    match finalStep with
    | (log2, Except.error e) => (log ++ log2, Except.error e)
    | (log2, Except.ok out) =>
      (log ++ log2,
       Except.ok { name := self.base.result
                 , output := { surface := out, bounds := bounds } })

/-- `cairo::Rectangle`: the viewport rectangle (floating-point coordinates
are embedded as rationals). -/
structure Rectangle where
  x : Rat
  y : Rat
  width : Rat
  height : Rat
deriving DecidableEq, Repr

/-- A `viewBox` rectangle. Modelled from the spec: `ViewBox` (viewbox.rs,
outside the given sources) is `(x, y, width, height)` in user-space units;
the fields are exactly the ones viewport.rs reads. -/
structure ViewBox where
  x : Rat
  y : Rat
  width : Rat
  height : Rat
deriving DecidableEq, Repr

/-- `ClipMode` from viewport.rs: clip to the outer viewport rectangle or to
the inner viewBox rectangle. -/
inductive ClipMode where
  | ClipToViewport
  | ClipToVbox
deriving DecidableEq, Repr

/-- A `preserveAspectRatio` policy. Modelled from the spec: `AspectRatio`
(aspect_ratio.rs, outside the given sources) only enters through its
`compute(&vbox, viewport)` method returning the aligned `(x, y, w, h)`, so
the policy is embedded as that function itself. -/
abbrev AspectRatio : Type := ViewBox → Rectangle → Rat × Rat × Rat × Rat

/-- The cascaded style values passed through to the drawing context; opaque
here. -/
structure ComputedValues where
  tag : Nat

/-- A rendering-pipeline error returned by the draw callback; opaque. -/
structure RenderingError where
  code : Nat
deriving DecidableEq, Repr

/-- One call `draw_in_viewport` makes on its drawing context (or on the
caller-supplied callback); the function returns the ordered list of these. -/
inductive VEvent where
  | withDiscreteLayerEnter
  | setMatrix (matrix : CairoMatrix)
  | clipRect (x y width height : Rat)
  | pushViewBox (width height : Rat)
  | drawFnCall
deriving DecidableEq, Repr

/-- Whether an event is a `clip` call on the drawing context. -/
def VEvent.isClipRect : VEvent → Bool
  | VEvent.clipRect _ _ _ _ => true
  | _ => false

/-- The external behavior `draw_in_viewport` depends on.
  * `approx_eq_cairo b a` models `b.approx_eq_cairo(&a)` (float_eq_cairo.rs,
    outside the given sources). Modelled from the spec: exact equality under
    a configured floating-point tolerance, kept abstract as a Boolean
    predicate;
  * `drawResult` is the result the caller-supplied `draw_fn` returns when
    invoked. -/
structure DrawEnv where
  approx_eq_cairo : Rat → Rat → Bool
  drawResult : Except RenderingError Unit

/-- `draw_in_viewport` (viewport.rs lines 18-86), as the ordered list of
drawing-context calls it performs plus its returned result.

The structure mirrors the source exactly: a degenerate viewport returns
`Ok(())` before anything else; otherwise a discrete layer is entered and,
inside it: an optional `ClipToViewport` clip under the incoming affine, the
degenerate-viewBox early `Ok(())`, or `push_view_box` followed by the
composed transform (translate, scale, translate applied to the incoming
affine in cairo order), `set_matrix`, the optional `ClipToVbox` clip, and
finally the `draw_fn` invocation whose result is propagated.
`with_discrete_layer` propagates its closure's result; the scope-release
side of the layer and of `push_view_box` has no observable value here. -/
def draw_in_viewport (env : DrawEnv) (viewport : Rectangle) (clip_mode : Option ClipMode)
    (vbox : Option ViewBox) ( preserve_aspect_ratio : AspectRatio) (_node : RsvgNode)
    (_values : ComputedValues) (affine : CairoMatrix) (_clipping : Bool) :
    List VEvent × Except RenderingError Unit :=
  if env.approx_eq_cairo viewport.width 0 || env.approx_eq_cairo viewport.height 0 then
    ([], Except.ok ())
  else
    let clipViewportLog : List VEvent :=
      match clip_mode with
      | some ClipMode.ClipToViewport =>
        [VEvent.setMatrix affine,
         VEvent.clipRect viewport.x viewport.y viewport.width viewport.height]
      | _ => []
    let inner : List VEvent × Except RenderingError Unit :=
      match vbox with
      | some vb =>
        if env.approx_eq_cairo vb.width 0 || env.approx_eq_cairo vb.height 0 then
          (clipViewportLog, Except.ok ())
        else
          let quad := preserve_aspect_ratio vb viewport
          let x := quad.1
          let y := quad.2.1
          let w := quad.2.2.1
          let h := quad.2.2.2
          let affine1 :=
            (((affine.translate x y).scale (w / vb.width) (h / vb.height)).translate
              (-vb.x) (-vb.y))
          let clipVboxLog : List VEvent :=
            match clip_mode with
            | some ClipMode.ClipToVbox =>
              [VEvent.clipRect vb.x vb.y vb.width vb.height]
            | _ => []
          (clipViewportLog
             ++ [VEvent.pushViewBox vb.width vb.height, VEvent.setMatrix affine1]
             ++ clipVboxLog ++ [VEvent.drawFnCall],
           env.drawResult)
      | none =>
        let affine1 := affine.translate viewport.x viewport.y
        (clipViewportLog
           ++ [VEvent.pushViewBox viewport.width viewport.height,
               VEvent.setMatrix affine1, VEvent.drawFnCall],
         env.drawResult)
    (VEvent.withDiscreteLayerEnter :: inner.1, inner.2)

/-! Helper lemmas shared by the claim theorems. -/

/-- Folding an appended child list first folds the prefix, then continues
with the suffix from the accumulator the prefix produced. -/
theorem Merge.renderChildren_append (ctx : FilterContext) (bounds : IRect)
    (l1 l2 : List ChildNode) (acc : Option Surface) :
    Merge.renderChildren ctx bounds (l1 ++ l2) acc =
      match Merge.renderChildren ctx bounds l1 acc with
      | (log, Except.error e) => (log, Except.error e)
      | (log, Except.ok s) =>
        (log ++ (Merge.renderChildren ctx bounds l2 s).1,
         (Merge.renderChildren ctx bounds l2 s).2) := by
  induction l1 generalizing acc with
  | nil => simp [Merge.renderChildren]
  | cons c rest ih =>
    simp only [List.cons_append, Merge.renderChildren]
    rcases h : MergeNode.render c.impl ctx bounds acc with ⟨log, r⟩
    rcases r with e | s
    · rfl
    · rcases h2 : Merge.renderChildren ctx bounds rest (some s) with ⟨log2, r2⟩
      rcases r2 with e2 | s2
      · simp [ih (some s), h2]
      · simp [ih (some s), h2]

/-- Claim C3: a call of `draw_in_viewport` whose viewport width or height is
zero under the configured floating-point tolerance returns success, performs
no drawing-context call at all, and never invokes `draw_fn`, for every vbox,
aspect-ratio policy, clip mode and draw callback result. -/
theorem draw_in_viewport_zero_viewport_noop (env : DrawEnv) (viewport : Rectangle)
    (clip_mode : Option ClipMode) (vbox : Option ViewBox) ( par : AspectRatio)
    (node : RsvgNode) (values : ComputedValues) (affine : CairoMatrix) (clipping : Bool)
    (h : env.approx_eq_cairo viewport.width 0 = true ∨
         env.approx_eq_cairo viewport.height 0 = true) :
    draw_in_viewport env viewport clip_mode vbox par node values affine clipping
      = ([], Except.ok ())
    ∧ VEvent.drawFnCall ∉
        (draw_in_viewport env viewport clip_mode vbox par node values affine clipping).1 := by
  have hcond : (env.approx_eq_cairo viewport.width 0
      || env.approx_eq_cairo viewport.height 0) = true := by
    rcases h with h | h <;> simp [h]
  constructor
  · simp [draw_in_viewport, hcond]
  · simp [draw_in_viewport, hcond]

/-- Witness for C3 at a concrete zero-width viewport. -/
theorem draw_in_viewport_zero_viewport_noop_witness :
    draw_in_viewport { approx_eq_cairo := fun a b => decide (a = b), drawResult := Except.ok () }
        { x := 0, y := 0, width := 0, height := 7 } none none (fun _ vp => (0, 0, vp.width, vp.height))
        { children := [] } { tag := 0 } CairoMatrix.identity false
      = ([], Except.ok ()) := by
  exact (draw_in_viewport_zero_viewport_noop
    { approx_eq_cairo := fun a b => decide (a = b), drawResult := Except.ok () }
    { x := 0, y := 0, width := 0, height := 7 } none none (fun _ vp => (0, 0, vp.width, vp.height))
    { children := [] } { tag := 0 } CairoMatrix.identity false (Or.inl (by decide))).1

/-! Concrete fixtures used by the witness theorems. -/

/-- A concrete draw environment: the tolerance predicate is exact equality
and the draw callback succeeds. -/
def envW : DrawEnv :=
  { approx_eq_cairo := fun a b => decide (a = b), drawResult := Except.ok () }

/-- A concrete non-degenerate viewport. -/
def vpW : Rectangle := { x := 0, y := 0, width := 100, height := 50 }

/-- A concrete non-degenerate viewBox. -/
def vbW : ViewBox := { x := 0, y := 0, width := 50, height := 50 }

/-- A concrete degenerate (zero-width) viewBox. -/
def vbDegW : ViewBox := { x := 0, y := 0, width := 0, height := 50 }

/-- A concrete aspect-ratio policy result (mid/mid meet for `vpW`/`vbW`). -/
def parW : AspectRatio := fun _ _ => (25, 0, 50, 50)

/-- A concrete childless node. -/
def nodeW0 : RsvgNode := { children := [] }

/-- Concrete computed values. -/
def cvW : ComputedValues := { tag := 0 }

/-- Claim C4: with a non-degenerate viewport but a present viewBox whose
width or height is zero under the tolerance, `draw_in_viewport` returns
success and `draw_fn` is never invoked, for any clip mode. -/
theorem draw_in_viewport_zero_vbox_noop (env : DrawEnv) (viewport : Rectangle)
    (clip_mode : Option ClipMode) (vb : ViewBox) ( par : AspectRatio)
    (node : RsvgNode) (values : ComputedValues) (affine : CairoMatrix) (clipping : Bool)
    (hvp : (env.approx_eq_cairo viewport.width 0
        || env.approx_eq_cairo viewport.height 0) = false)
    (hvb : (env.approx_eq_cairo vb.width 0
        || env.approx_eq_cairo vb.height 0) = true) :
    (draw_in_viewport env viewport clip_mode (some vb) par node values affine clipping).2
      = Except.ok ()
    ∧ VEvent.drawFnCall ∉
        (draw_in_viewport env viewport clip_mode (some vb) par node values affine clipping).1 := by
  rcases clip_mode with _ | cm
  · constructor <;> simp [draw_in_viewport, hvp, hvb]
  · rcases cm <;> (constructor <;> simp [draw_in_viewport, hvp, hvb])

/-- Witness for C4 at a concrete zero-width viewBox under `ClipToViewport`. -/
theorem draw_in_viewport_zero_vbox_noop_witness :
    (draw_in_viewport envW vpW (some ClipMode.ClipToViewport) (some vbDegW) parW nodeW0 cvW
        CairoMatrix.identity false).2 = Except.ok ()
    ∧ VEvent.drawFnCall ∉
        (draw_in_viewport envW vpW (some ClipMode.ClipToViewport) (some vbDegW) parW nodeW0 cvW
          CairoMatrix.identity false).1 :=
  draw_in_viewport_zero_vbox_noop envW vpW (some ClipMode.ClipToViewport) vbDegW parW nodeW0 cvW
    CairoMatrix.identity false (by decide) (by decide)

/-- Claim C5: with a present non-degenerate viewBox, the transform set as
the drawing transform before `draw_fn` runs (and not changed again before
`draw_fn`) is the incoming affine composed, in cairo call order
(left-to-right onto the incoming affine), with translate(x, y), then
scale(w / vbox.width, h / vbox.height), then translate(-vbox.x, -vbox.y),
with `(x, y, w, h)` computed by the aspect-ratio policy; pointwise the
composite applies translate(-vbox.x, -vbox.y) first, then the scale, then
translate(x, y), then the incoming affine. -/
theorem draw_in_viewport_vbox_transform (env : DrawEnv) (viewport : Rectangle)
    (clip_mode : Option ClipMode) (vb : ViewBox) ( par : AspectRatio)
    (node : RsvgNode) (values : ComputedValues) (affine : CairoMatrix) (clipping : Bool)
    (x y w h : Rat)
    (hvp : (env.approx_eq_cairo viewport.width 0
        || env.approx_eq_cairo viewport.height 0) = false)
    (hvb : (env.approx_eq_cairo vb.width 0
        || env.approx_eq_cairo vb.height 0) = false)
    (hpar : par vb viewport = (x, y, w, h)) :
    (∃ l1 l2,
      (draw_in_viewport env viewport clip_mode (some vb) par node values affine clipping).1
        = l1 ++ VEvent.setMatrix
              (((affine.translate x y).scale (w / vb.width) (h / vb.height)).translate
                (-vb.x) (-vb.y))
            :: l2 ++ [VEvent.drawFnCall]
      ∧ ∀ m, VEvent.setMatrix m ∉ l2)
    ∧ ∀ p : Rat × Rat,
        (((affine.translate x y).scale (w / vb.width) (h / vb.height)).translate
            (-vb.x) (-vb.y)).apply p
          = affine.apply ((CairoMatrix.init_translate x y).apply
              ((CairoMatrix.init_scale (w / vb.width) (h / vb.height)).apply
                ((CairoMatrix.init_translate (-vb.x) (-vb.y)).apply p))) := by
  constructor
  · rcases clip_mode with _ | cm
    · exact ⟨[VEvent.withDiscreteLayerEnter, VEvent.pushViewBox vb.width vb.height], [],
        by simp [draw_in_viewport, hvp, hvb, hpar], by simp⟩
    · rcases cm
      · exact ⟨[VEvent.withDiscreteLayerEnter, VEvent.setMatrix affine,
          VEvent.clipRect viewport.x viewport.y viewport.width viewport.height,
          VEvent.pushViewBox vb.width vb.height], [],
          by simp [draw_in_viewport, hvp, hvb, hpar], by simp⟩
      · exact ⟨[VEvent.withDiscreteLayerEnter, VEvent.pushViewBox vb.width vb.height],
          [VEvent.clipRect vb.x vb.y vb.width vb.height],
          by simp [draw_in_viewport, hvp, hvb, hpar], by simp⟩
  · intro p
    simp only [CairoMatrix.apply, CairoMatrix.translate, CairoMatrix.scale,
      CairoMatrix.multiply, CairoMatrix.init_translate, CairoMatrix.init_scale,
      Prod.mk.injEq]
    constructor <;> ring

/-- Witness for C5 at concrete inputs. -/
theorem draw_in_viewport_vbox_transform_witness :
    (∃ l1 l2,
      (draw_in_viewport envW vpW none (some vbW) parW nodeW0 cvW CairoMatrix.identity false).1
        = l1 ++ VEvent.setMatrix
              (((CairoMatrix.identity.translate 25 0).scale (50 / vbW.width) (50 / vbW.height)).translate
                (-vbW.x) (-vbW.y))
            :: l2 ++ [VEvent.drawFnCall]
      ∧ ∀ m, VEvent.setMatrix m ∉ l2)
    ∧ ∀ p : Rat × Rat,
        (((CairoMatrix.identity.translate 25 0).scale (50 / vbW.width) (50 / vbW.height)).translate
            (-vbW.x) (-vbW.y)).apply p
          = CairoMatrix.identity.apply ((CairoMatrix.init_translate 25 0).apply
              ((CairoMatrix.init_scale (50 / vbW.width) (50 / vbW.height)).apply
                ((CairoMatrix.init_translate (-vbW.x) (-vbW.y)).apply p))) :=
  draw_in_viewport_vbox_transform envW vpW none vbW parW nodeW0 cvW CairoMatrix.identity false
    25 0 50 50 (by decide) (by decide) rfl

/-- Claim C8: under `ClipToViewport` the viewport clip is applied right
after setting the incoming affine as the transform, as the first two
drawing-context calls inside the layer, before any viewBox adjustment (for
every vbox argument); under `ClipToVbox` with a present non-degenerate
viewBox, the viewBox clip is applied directly after the composed viewBox
transform has been set. -/
theorem draw_in_viewport_clip_modes (env : DrawEnv) (viewport : Rectangle)
    (vb : ViewBox) ( par : AspectRatio) (node : RsvgNode) (values : ComputedValues)
    (affine : CairoMatrix) (clipping : Bool) (x y w h : Rat)
    (hvp : (env.approx_eq_cairo viewport.width 0
        || env.approx_eq_cairo viewport.height 0) = false)
    (hvb : (env.approx_eq_cairo vb.width 0
        || env.approx_eq_cairo vb.height 0) = false)
    (hpar : par vb viewport = (x, y, w, h)) :
    (∀ vbox : Option ViewBox, ∃ rest,
      (draw_in_viewport env viewport (some ClipMode.ClipToViewport) vbox par node values
          affine clipping).1
        = VEvent.withDiscreteLayerEnter :: VEvent.setMatrix affine ::
          VEvent.clipRect viewport.x viewport.y viewport.width viewport.height :: rest)
    ∧ (draw_in_viewport env viewport (some ClipMode.ClipToVbox) (some vb) par node values
          affine clipping).1
        = [VEvent.withDiscreteLayerEnter,
           VEvent.pushViewBox vb.width vb.height,
           VEvent.setMatrix
             (((affine.translate x y).scale (w / vb.width) (h / vb.height)).translate
               (-vb.x) (-vb.y)),
           VEvent.clipRect vb.x vb.y vb.width vb.height,
           VEvent.drawFnCall] := by
  constructor
  · intro vbox
    rcases vbox with _ | vb2
    · exact ⟨[VEvent.pushViewBox viewport.width viewport.height,
        VEvent.setMatrix (affine.translate viewport.x viewport.y), VEvent.drawFnCall],
        by simp [draw_in_viewport, hvp]⟩
    · by_cases hc : (env.approx_eq_cairo vb2.width 0
          || env.approx_eq_cairo vb2.height 0) = true
      · exact ⟨[], by simp [draw_in_viewport, hvp, hc]⟩
      · exact ⟨[VEvent.pushViewBox vb2.width vb2.height,
          VEvent.setMatrix
            (((affine.translate (par vb2 viewport).1 (par vb2 viewport).2.1).scale
                ((par vb2 viewport).2.2.1 / vb2.width)
                ((par vb2 viewport).2.2.2 / vb2.height)).translate (-vb2.x) (-vb2.y)),
          VEvent.drawFnCall],
          by simp [draw_in_viewport, hvp, eq_false_of_ne_true hc]⟩
  · simp [draw_in_viewport, hvp, hvb, hpar]

/-- Witness for C8 at concrete inputs. -/
theorem draw_in_viewport_clip_modes_witness :
    (∀ vbox : Option ViewBox, ∃ rest,
      (draw_in_viewport envW vpW (some ClipMode.ClipToViewport) vbox parW nodeW0 cvW
          CairoMatrix.identity false).1
        = VEvent.withDiscreteLayerEnter :: VEvent.setMatrix CairoMatrix.identity ::
          VEvent.clipRect vpW.x vpW.y vpW.width vpW.height :: rest)
    ∧ (draw_in_viewport envW vpW (some ClipMode.ClipToVbox) (some vbW) parW nodeW0 cvW
          CairoMatrix.identity false).1
        = [VEvent.withDiscreteLayerEnter,
           VEvent.pushViewBox vbW.width vbW.height,
           VEvent.setMatrix
             (((CairoMatrix.identity.translate 25 0).scale (50 / vbW.width)
                 (50 / vbW.height)).translate (-vbW.x) (-vbW.y)),
           VEvent.clipRect vbW.x vbW.y vbW.width vbW.height,
           VEvent.drawFnCall] :=
  draw_in_viewport_clip_modes envW vpW vbW parW nodeW0 cvW CairoMatrix.identity false
    25 0 50 50 (by decide) (by decide) rfl

/-- Claim C10: `clip_mode` is an optional argument, and when it is absent
no clip call is made on either the viewBox or the no-viewBox path, while the
coordinate frame and the drawing transform before `draw_fn` are established
exactly as in the clipped cases: `push_view_box` followed by setting the
same composed matrix. -/
theorem draw_in_viewport_none_clip (env : DrawEnv) (viewport : Rectangle)
    (vb : ViewBox) ( par : AspectRatio) (node : RsvgNode) (values : ComputedValues)
    (affine : CairoMatrix) (clipping : Bool) (x y w h : Rat)
    (hvp : (env.approx_eq_cairo viewport.width 0
        || env.approx_eq_cairo viewport.height 0) = false)
    (hvb : (env.approx_eq_cairo vb.width 0
        || env.approx_eq_cairo vb.height 0) = false)
    (hpar : par vb viewport = (x, y, w, h)) :
    (draw_in_viewport env viewport none (some vb) par node values affine clipping).1
      = [VEvent.withDiscreteLayerEnter,
         VEvent.pushViewBox vb.width vb.height,
         VEvent.setMatrix
           (((affine.translate x y).scale (w / vb.width) (h / vb.height)).translate
             (-vb.x) (-vb.y)),
         VEvent.drawFnCall]
    ∧ (draw_in_viewport env viewport none none par node values affine clipping).1
      = [VEvent.withDiscreteLayerEnter,
         VEvent.pushViewBox viewport.width viewport.height,
         VEvent.setMatrix (affine.translate viewport.x viewport.y),
         VEvent.drawFnCall]
    ∧ ∀ (vbox : Option ViewBox) (e : VEvent),
        e ∈ (draw_in_viewport env viewport none vbox par node values affine clipping).1 →
        e.isClipRect = false := by
  refine ⟨by simp [draw_in_viewport, hvp, hvb, hpar], by simp [draw_in_viewport, hvp], ?_⟩
  intro vbox e he
  rcases vbox with _ | vb2
  · simp [draw_in_viewport, hvp] at he
    rcases he with rfl | rfl | rfl | rfl <;> rfl
  · by_cases hc : (env.approx_eq_cairo vb2.width 0
        || env.approx_eq_cairo vb2.height 0) = true
    · simp [draw_in_viewport, hvp, hc] at he
      rcases he with rfl
      rfl
    · simp [draw_in_viewport, hvp, eq_false_of_ne_true hc] at he
      rcases he with rfl | rfl | rfl | rfl <;> rfl

/-- Witness for C10 at concrete inputs. -/
theorem draw_in_viewport_none_clip_witness :
    (draw_in_viewport envW vpW none (some vbW) parW nodeW0 cvW CairoMatrix.identity false).1
      = [VEvent.withDiscreteLayerEnter,
         VEvent.pushViewBox vbW.width vbW.height,
         VEvent.setMatrix
           (((CairoMatrix.identity.translate 25 0).scale (50 / vbW.width)
               (50 / vbW.height)).translate (-vbW.x) (-vbW.y)),
         VEvent.drawFnCall]
    ∧ (draw_in_viewport envW vpW none none parW nodeW0 cvW CairoMatrix.identity false).1
      = [VEvent.withDiscreteLayerEnter,
         VEvent.pushViewBox vpW.width vpW.height,
         VEvent.setMatrix (CairoMatrix.identity.translate vpW.x vpW.y),
         VEvent.drawFnCall]
    ∧ ∀ (vbox : Option ViewBox) (e : VEvent),
        e ∈ (draw_in_viewport envW vpW none vbox parW nodeW0 cvW CairoMatrix.identity false).1 →
        e.isClipRect = false :=
  draw_in_viewport_none_clip envW vpW vbW parW nodeW0 cvW CairoMatrix.identity false
    25 0 50 50 (by decide) (by decide) rfl

/-! Concrete merge fixtures used by the witness theorems. -/

/-- A concrete filter context in which every external operation succeeds. -/
def ctxW : FilterContext :=
  { getInputSurface := fun _ => Except.ok (Surface.source 0)
  , sourceWidth := 4
  , sourceHeight := 3
  , primitiveBounds := fun _ => { x0 := 0, y0 := 0, x1 := 2, y1 := 3 }
  , linearizeResult := fun _ _ => none
  , unlinearizeResult := fun _ _ => none
  , createResult := fun _ _ _ => none }

/-- The bounds `ctxW` computes for every primitive. -/
def boundsW : IRect := { x0 := 0, y0 := 0, x1 := 2, y1 := 3 }

/-- A concrete merge primitive without a declared result name. -/
def mergeW : Merge := { base := { result := none } }

/-- A concrete merge-node child with an unset `in` attribute. -/
def childW : ChildNode :=
  { nodeType := NodeType.FilterPrimitiveMergeNode, impl := { in_ := none } }

/-- A concrete child of a different node kind. -/
def childOtherW : ChildNode :=
  { nodeType := NodeType.OtherKind 5, impl := { in_ := none } }

/-- A node with exactly one merge-node child. -/
def nodeOneW : RsvgNode := { children := [childW] }

/-- A node with two merge-node children and one other-kind child between. -/
def nodeMixedW : RsvgNode := { children := [childW, childOtherW, childW] }

/-- A context whose input resolution fails. -/
def ctxInErrW : FilterContext :=
  { ctxW with getInputSurface := fun _ => Except.error (FilterError.InputResolution 7) }

/-- A context whose linearize conversion fails. -/
def ctxLinErrW : FilterContext :=
  { ctxW with linearizeResult := fun _ _ => some { code := 3 } }

/-- A context whose unlinearize conversion fails. -/
def ctxUnlinErrW : FilterContext :=
  { ctxW with unlinearizeResult := fun _ _ => some { code := 4 } }

/-- A context whose surface allocation fails. -/
def ctxCreateErrW : FilterContext :=
  { ctxW with createResult := fun _ _ _ => some { code := 5 } }

/-- Claim C1: for a merge-node child rendered with an existing accumulator
(every child after the first), the resolved input is first linearized over
the primitive's bounds and then painted onto the accumulator with the
source-over operator, the bounds rectangle being the only clip entry
(recorded under the identity transform, i.e. set as a clip path before
painting) and the paint itself happening under the identity transform; and
when the child fold ends with an accumulator, `Merge::render` converts it
back to display color space by unlinearizing over the same bounds. -/
theorem merge_child_composite_and_final_unlinearize (ctx : FilterContext) (bounds : IRect) :
    (∀ (child : MergeNode) (acc resolved : Surface),
      ctx.getInputSurface child.in_ = Except.ok resolved →
      ctx.linearizeResult resolved bounds = none →
      (MergeNode.render child ctx bounds (some acc)).2
        = Except.ok (Surface.painted acc (Surface.linearized resolved bounds) 0 0
            Operator.Over
            [{ rect := { x := (bounds.x0 : Rat), y := (bounds.y0 : Rat)
                       , width := ((bounds.x1 - bounds.x0 : Int) : Rat)
                       , height := ((bounds.y1 - bounds.y0 : Int) : Rat) }
             , matrix := CairoMatrix.identity }]
            CairoMatrix.identity))
    ∧ (∀ (self : Merge) (node : RsvgNode) (log : List Event) (acc : Surface),
      bounds = ctx.primitiveBounds self.base →
      Merge.renderChildren ctx bounds
          (node.children.filter (fun c => c.nodeType == NodeType.FilterPrimitiveMergeNode))
          none
        = (log, Except.ok (some acc)) →
      ctx.unlinearizeResult acc bounds = none →
      (Merge.render self node ctx).2
        = Except.ok { name := self.base.result
                    , output := { surface := Surface.unlinearized acc bounds
                                , bounds := bounds } }) := by
  constructor
  · intro child acc resolved hin hlin
    simp [MergeNode.render, linearize_surface, hin, hlin, CairoContext.new,
      CairoContext.rectangle, CairoContext.clip, CairoContext.set_source_surface,
      CairoContext.set_operator, CairoContext.paint]
  · intro self node log acc hb hfold hunlin
    subst hb
    simp [Merge.render, hfold, unlinearize_surface, hunlin]

/-- Witness for C1 at concrete inputs. -/
theorem merge_child_composite_and_final_unlinearize_witness :
    (MergeNode.render { in_ := none } ctxW boundsW (some (Surface.source 1))).2
      = Except.ok (Surface.painted (Surface.source 1)
          (Surface.linearized (Surface.source 0) boundsW) 0 0 Operator.Over
          [{ rect := { x := (boundsW.x0 : Rat), y := (boundsW.y0 : Rat)
                     , width := ((boundsW.x1 - boundsW.x0 : Int) : Rat)
                     , height := ((boundsW.y1 - boundsW.y0 : Int) : Rat) }
           , matrix := CairoMatrix.identity }]
          CairoMatrix.identity)
    ∧ (Merge.render mergeW nodeOneW ctxW).2
      = Except.ok { name := mergeW.base.result
                  , output := { surface := (Surface.unlinearized
                      (Surface.linearized (Surface.source 0) boundsW) boundsW)
                              , bounds := boundsW } } :=
  ⟨(merge_child_composite_and_final_unlinearize ctxW boundsW).1
      { in_ := none } (Surface.source 1) (Surface.source 0) rfl rfl,
   (merge_child_composite_and_final_unlinearize ctxW boundsW).2
      mergeW nodeOneW
      [Event.getInputCall none, Event.linearizeCall (Surface.source 0) boundsW]
      (Surface.linearized (Surface.source 0) boundsW) rfl rfl rfl⟩

/-- Claim C2: a merge with zero merge-node children succeeds (when the
backend allocation succeeds) with a freshly created — hence fully
transparent — ARgb32 surface sized to the source graphic; its only external
call is that allocation, so linearize/unlinearize are never invoked, and
the whole run is unchanged under arbitrary replacement of the color-space
conversion oracles, so no color-space conversion error can occur. -/
theorem merge_empty_children_transparent (ctx : FilterContext) (self : Merge)
    (node : RsvgNode)
    (hch : node.children.filter (fun c => c.nodeType == NodeType.FilterPrimitiveMergeNode)
        = [])
    (hcreate : ctx.createResult Format.ARgb32 ctx.sourceWidth ctx.sourceHeight = none) :
    Merge.render self node ctx
      = ([Event.createCall Format.ARgb32 ctx.sourceWidth ctx.sourceHeight],
         Except.ok { name := self.base.result
                   , output := { surface := (Surface.created Format.ARgb32
                       ctx.sourceWidth ctx.sourceHeight)
                               , bounds := ctx.primitiveBounds self.base } })
    ∧ (∀ e ∈ (Merge.render self node ctx).1,
        (∀ s b, e ≠ Event.linearizeCall s b) ∧ (∀ s b, e ≠ Event.unlinearizeCall s b))
    ∧ (∀ L U, Merge.render self node
        { ctx with linearizeResult := L, unlinearizeResult := U }
        = Merge.render self node ctx) := by
  have h1 : Merge.render self node ctx
      = ([Event.createCall Format.ARgb32 ctx.sourceWidth ctx.sourceHeight],
         Except.ok { name := self.base.result
                   , output := { surface := (Surface.created Format.ARgb32
                       ctx.sourceWidth ctx.sourceHeight)
                               , bounds := ctx.primitiveBounds self.base } }) := by
    simp [Merge.render, hch, Merge.renderChildren, image_surface_create, hcreate]
  refine ⟨h1, ?_, ?_⟩
  · intro e he
    rw [h1] at he
    simp only [List.mem_singleton] at he
    subst he
    constructor <;> intro s b <;> simp
  · intro L U
    simp [Merge.render, hch, Merge.renderChildren, image_surface_create, hcreate]

/-- Witness for C2 at concrete inputs. -/
theorem merge_empty_children_transparent_witness :
    Merge.render mergeW nodeW0 ctxW
      = ([Event.createCall Format.ARgb32 ctxW.sourceWidth ctxW.sourceHeight],
         Except.ok { name := mergeW.base.result
                   , output := { surface := (Surface.created Format.ARgb32
                       ctxW.sourceWidth ctxW.sourceHeight)
                               , bounds := ctxW.primitiveBounds mergeW.base } })
    ∧ (∀ e ∈ (Merge.render mergeW nodeW0 ctxW).1,
        (∀ s b, e ≠ Event.linearizeCall s b) ∧ (∀ s b, e ≠ Event.unlinearizeCall s b))
    ∧ (∀ L U, Merge.render mergeW nodeW0
        { ctxW with linearizeResult := L, unlinearizeResult := U }
        = Merge.render mergeW nodeW0 ctxW) :=
  merge_empty_children_transparent ctxW mergeW nodeW0 rfl rfl

/-- Claim C6: each failure aborts `Merge::render` with its typed error and
nothing after the failing step runs. In order of the conjuncts: an
input-resolution failure at a merge-node child aborts the child fold with
that error and the call log stops at the failing call, independent of the
children after it; a linearize failure does the same with
`BadInputSurfaceStatus`; a failed child fold makes `Merge::render` return
the same error with the same log, producing no `FilterResult`; a failed
final unlinearize yields `OutputSurfaceCreation` of its status; a failed
empty-merge surface allocation yields `OutputSurfaceCreation` of its
status. -/
theorem merge_error_propagation :
    (∀ (ctx : FilterContext) (bounds : IRect) (pre post : List ChildNode) (c : ChildNode)
        (plog : List Event) (acc : Option Surface) (e : FilterError),
      Merge.renderChildren ctx bounds pre none = (plog, Except.ok acc) →
      ctx.getInputSurface c.impl.in_ = Except.error e →
      Merge.renderChildren ctx bounds (pre ++ c :: post) none
        = (plog ++ [Event.getInputCall c.impl.in_], Except.error e))
    ∧ (∀ (ctx : FilterContext) (bounds : IRect) (pre post : List ChildNode) (c : ChildNode)
        (plog : List Event) (acc : Option Surface) (resolved : Surface) (st : Status),
      Merge.renderChildren ctx bounds pre none = (plog, Except.ok acc) →
      ctx.getInputSurface c.impl.in_ = Except.ok resolved →
      ctx.linearizeResult resolved bounds = some st →
      Merge.renderChildren ctx bounds (pre ++ c :: post) none
        = (plog ++ [Event.getInputCall c.impl.in_, Event.linearizeCall resolved bounds],
           Except.error (FilterError.BadInputSurfaceStatus st)))
    ∧ (∀ (ctx : FilterContext) (self : Merge) (node : RsvgNode) (log : List Event)
        (e : FilterError),
      Merge.renderChildren ctx (ctx.primitiveBounds self.base)
          (node.children.filter (fun c => c.nodeType == NodeType.FilterPrimitiveMergeNode))
          none
        = (log, Except.error e) →
      Merge.render self node ctx = (log, Except.error e))
    ∧ (∀ (ctx : FilterContext) (self : Merge) (node : RsvgNode) (log : List Event)
        (acc : Surface) (st : Status),
      Merge.renderChildren ctx (ctx.primitiveBounds self.base)
          (node.children.filter (fun c => c.nodeType == NodeType.FilterPrimitiveMergeNode))
          none
        = (log, Except.ok (some acc)) →
      ctx.unlinearizeResult acc (ctx.primitiveBounds self.base) = some st →
      Merge.render self node ctx
        = (log ++ [Event.unlinearizeCall acc (ctx.primitiveBounds self.base)],
           Except.error (FilterError.OutputSurfaceCreation st)))
    ∧ (∀ (ctx : FilterContext) (self : Merge) (node : RsvgNode) (st : Status),
      node.children.filter (fun c => c.nodeType == NodeType.FilterPrimitiveMergeNode) = [] →
      ctx.createResult Format.ARgb32 ctx.sourceWidth ctx.sourceHeight = some st →
      Merge.render self node ctx
        = ([Event.createCall Format.ARgb32 ctx.sourceWidth ctx.sourceHeight],
           Except.error (FilterError.OutputSurfaceCreation st))) := by
  refine ⟨?_, ?_, ?_, ?_, ?_⟩
  · intro ctx bounds pre post c plog acc e hpre hin
    rw [Merge.renderChildren_append, hpre]
    simp [Merge.renderChildren, MergeNode.render, hin]
  · intro ctx bounds pre post c plog acc resolved st hpre hin hlin
    rw [Merge.renderChildren_append, hpre]
    simp [Merge.renderChildren, MergeNode.render, linearize_surface, hin, hlin]
  · intro ctx self node log e hfold
    simp [Merge.render, hfold]
  · intro ctx self node log acc st hfold hunlin
    simp [Merge.render, hfold, unlinearize_surface, hunlin]
  · intro ctx self node st hch hcreate
    simp [Merge.render, hch, Merge.renderChildren, image_surface_create, hcreate]

/-- Witness for C6: each failure kind exercised at concrete inputs. -/
theorem merge_error_propagation_witness :
    Merge.renderChildren ctxInErrW boundsW ([] ++ childW :: [childW]) none
      = ([Event.getInputCall none], Except.error (FilterError.InputResolution 7))
    ∧ Merge.renderChildren ctxLinErrW boundsW ([] ++ childW :: [childW]) none
      = ([Event.getInputCall none, Event.linearizeCall (Surface.source 0) boundsW],
         Except.error (FilterError.BadInputSurfaceStatus { code := 3 }))
    ∧ Merge.render mergeW nodeOneW ctxInErrW
      = ([Event.getInputCall none], Except.error (FilterError.InputResolution 7))
    ∧ Merge.render mergeW nodeOneW ctxUnlinErrW
      = ([Event.getInputCall none, Event.linearizeCall (Surface.source 0) boundsW]
           ++ [Event.unlinearizeCall (Surface.linearized (Surface.source 0) boundsW)
                (ctxUnlinErrW.primitiveBounds mergeW.base)],
         Except.error (FilterError.OutputSurfaceCreation { code := 4 }))
    ∧ Merge.render mergeW nodeW0 ctxCreateErrW
      = ([Event.createCall Format.ARgb32 ctxCreateErrW.sourceWidth
            ctxCreateErrW.sourceHeight],
         Except.error (FilterError.OutputSurfaceCreation { code := 5 })) :=
  ⟨merge_error_propagation.1 ctxInErrW boundsW [] [childW] childW [] none
      (FilterError.InputResolution 7) rfl rfl,
   merge_error_propagation.2.1 ctxLinErrW boundsW [] [childW] childW [] none
      (Surface.source 0) { code := 3 } rfl rfl rfl,
   merge_error_propagation.2.2.1 ctxInErrW mergeW nodeOneW [Event.getInputCall none]
      (FilterError.InputResolution 7) rfl,
   merge_error_propagation.2.2.2.1 ctxUnlinErrW mergeW nodeOneW
      [Event.getInputCall none, Event.linearizeCall (Surface.source 0) boundsW]
      (Surface.linearized (Surface.source 0) boundsW) { code := 4 } rfl rfl,
   merge_error_propagation.2.2.2.2 ctxCreateErrW mergeW nodeW0 { code := 5 } rfl rfl⟩

/-- Claim C7: `Merge::render` depends only on the sublist of children whose
kind is merge-node (every other kind is ignored); the fold over that
sublist is left-to-right in list (document) order — folding `l1 ++ l2`
first folds `l1`, its log is a prefix, and `l2` continues from `l1`'s
accumulator; and for the first merge-node child (no accumulator yet) the
accumulator becomes the linearized resolved input directly, with no
compositing step. -/
theorem merge_children_selection_order_first :
    (∀ (ctx : FilterContext) (self : Merge) (n1 n2 : RsvgNode),
      n1.children.filter (fun c => c.nodeType == NodeType.FilterPrimitiveMergeNode)
        = n2.children.filter (fun c => c.nodeType == NodeType.FilterPrimitiveMergeNode) →
      Merge.render self n1 ctx = Merge.render self n2 ctx)
    ∧ (∀ (ctx : FilterContext) (bounds : IRect) (l1 l2 : List ChildNode)
        (acc s : Option Surface) (log : List Event),
      Merge.renderChildren ctx bounds l1 acc = (log, Except.ok s) →
      Merge.renderChildren ctx bounds (l1 ++ l2) acc
        = (log ++ (Merge.renderChildren ctx bounds l2 s).1,
           (Merge.renderChildren ctx bounds l2 s).2))
    ∧ (∀ (ctx : FilterContext) (child : MergeNode) (bounds : IRect) (resolved : Surface),
      ctx.getInputSurface child.in_ = Except.ok resolved →
      ctx.linearizeResult resolved bounds = none →
      MergeNode.render child ctx bounds none
        = ([Event.getInputCall child.in_, Event.linearizeCall resolved bounds],
           Except.ok (Surface.linearized resolved bounds))) := by
  refine ⟨?_, ?_, ?_⟩
  · intro ctx self n1 n2 h
    simp only [Merge.render, h]
  · intro ctx bounds l1 l2 acc s log hfold
    rw [Merge.renderChildren_append, hfold]
  · intro ctx child bounds resolved hin hlin
    simp [MergeNode.render, linearize_surface, hin, hlin]

/-- Witness for C7 at concrete inputs: a node with an other-kind child in
the middle renders exactly like one without it; appending a child list
continues the fold; a first child yields the linearized input directly. -/
theorem merge_children_selection_order_first_witness :
    Merge.render mergeW nodeMixedW ctxW
      = Merge.render mergeW { children := [childW, childW] } ctxW
    ∧ Merge.renderChildren ctxW boundsW ([childW] ++ [childW]) none
      = ([Event.getInputCall none, Event.linearizeCall (Surface.source 0) boundsW]
           ++ (Merge.renderChildren ctxW boundsW [childW]
                (some (Surface.linearized (Surface.source 0) boundsW))).1,
         (Merge.renderChildren ctxW boundsW [childW]
            (some (Surface.linearized (Surface.source 0) boundsW))).2)
    ∧ MergeNode.render { in_ := none } ctxW boundsW none
      = ([Event.getInputCall none, Event.linearizeCall (Surface.source 0) boundsW],
         Except.ok (Surface.linearized (Surface.source 0) boundsW)) :=
  ⟨merge_children_selection_order_first.1 ctxW mergeW nodeMixedW
      { children := [childW, childW] } rfl,
   merge_children_selection_order_first.2.1 ctxW boundsW [childW] [childW] none
      (some (Surface.linearized (Surface.source 0) boundsW))
      [Event.getInputCall none, Event.linearizeCall (Surface.source 0) boundsW] rfl,
   merge_children_selection_order_first.2.2 ctxW { in_ := none } boundsW
      (Surface.source 0) rfl rfl⟩

/-- Claim C9: a merge with exactly one merge-node child whose resolution
and conversions succeed returns the child's resolved input passed through
linearize and then unlinearize over the primitive's computed bounds (the
conversions are restricted to those bounds), and the returned
`FilterOutput`'s bounds equal those computed bounds. -/
theorem merge_single_child_roundtrip (ctx : FilterContext) (self : Merge) (node : RsvgNode)
    (child : ChildNode) (resolved : Surface)
    (hch : node.children.filter (fun c => c.nodeType == NodeType.FilterPrimitiveMergeNode)
        = [child])
    (hin : ctx.getInputSurface child.impl.in_ = Except.ok resolved)
    (hlin : ctx.linearizeResult resolved (ctx.primitiveBounds self.base) = none)
    (hunlin : ctx.unlinearizeResult
        (Surface.linearized resolved (ctx.primitiveBounds self.base))
        (ctx.primitiveBounds self.base) = none) :
    (Merge.render self node ctx).2
      = Except.ok { name := self.base.result
                  , output := { surface := (Surface.unlinearized
                      (Surface.linearized resolved (ctx.primitiveBounds self.base))
                      (ctx.primitiveBounds self.base))
                              , bounds := ctx.primitiveBounds self.base } } := by
  simp [Merge.render, hch, Merge.renderChildren, MergeNode.render, linearize_surface,
    hin, hlin, unlinearize_surface, hunlin]

/-- Witness for C9 at concrete inputs. -/
theorem merge_single_child_roundtrip_witness :
    (Merge.render mergeW nodeOneW ctxW).2
      = Except.ok { name := mergeW.base.result
                  , output := { surface := (Surface.unlinearized
                      (Surface.linearized (Surface.source 0)
                        (ctxW.primitiveBounds mergeW.base))
                      (ctxW.primitiveBounds mergeW.base))
                              , bounds := ctxW.primitiveBounds mergeW.base } } :=
  merge_single_child_roundtrip ctxW mergeW nodeOneW childW (Surface.source 0)
    rfl rfl rfl rfl

end Rsvg
